import Mathlib

/-!
Shallow embedding of `src/cpu.rs` (a MOS 6502 emulator core) and proofs
checking the repository's specification against it.

Modelling conventions:
* Machine integers (`u8`, `u16`) are `Nat` with explicit `% 256` / `% 65536`
  where the Rust code wraps (`wrapping_add`, `as u8`, `as u16` casts).
* Rust's plain `+` on `u8`/`u16` is an overflow-checked addition (debug builds
  panic on overflow); it is modelled as an `Option`-valued addition that
  returns `none` on overflow.
* Fallible operations (array indexing that can panic, `unwrap`, slice copies)
  return `Option`; `none` means the Rust code panics.
* `HashMap::insert` calls in `create_ops_info` are kept as an ordered list of
  `(key, value)` insertions; a lookup takes the value of the *last* insertion
  with the given key, matching `HashMap` overwrite semantics.
* The non-terminating `run` loop is given explicit fuel; running out of fuel
  is reported as a distinct outcome (`fuelOut`) from returning (`ret`) and
  from panicking (`panicked`).
-/

namespace Nemulator

/-- Addressing-mode tags, exactly the variants of `enum AddressingMode`. -/
inductive AddressingMode where
  | Implicit
  | Accumulator
  | Immediate
  | ZeroPage
  | ZeroPageX
  | ZeroPageY
  | Relative
  | Absolute
  | AbsoluteX
  | AbsoluteY
  | Indirect
  | IndirectX
  | IndirectY
  | IndexedDirect
  | IndirectedIndex
  | Noneaddressing
deriving DecidableEq, Repr

/-- The opcode descriptor `struct OpCode`. -/
structure OpCode where
  opcode : Nat
  instruction : String
  addressing_mode : AddressingMode
  cycle_count : Nat
  size : Nat
deriving DecidableEq, Repr

/-- `struct CPU`.  The memory field of the Rust struct is `[u8; 0xffff]`
(65535 bytes); it is modelled as a total function together with the bounds
check `addr < 0xffff` performed at every access (see `MEM_LEN`). -/
structure CPU where
  acc_reg : Nat
  pc : Nat
  status : Nat
  reg_x : Nat
  reg_y : Nat
  memory : Nat → Nat

/-- Length of the `memory` array in the source: `[u8; 0xffff]`. -/
def MEM_LEN : Nat := 0xffff

/-- `CPU::new()`: zeroed registers and memory. -/
def CPU.new : CPU :=
  { acc_reg := 0, pc := 0, status := 0, reg_x := 0, reg_y := 0,
    memory := fun _ => 0 }

/-- Rust `u8` addition with overflow checking (`a + b` panics above 0xff). -/
def u8add (a b : Nat) : Option Nat :=
  if a + b ≤ 0xff then some (a + b) else none

/-- `CPU::mem_read`: `self.memory[address as usize]`; indexing past the end
of the 0xffff-byte array panics. -/
def memRead (s : CPU) (address : Nat) : Option Nat :=
  if address < MEM_LEN then some (s.memory address) else none

/-- `CPU::mem_write`. -/
def memWrite (s : CPU) (address data : Nat) : Option CPU :=
  if address < MEM_LEN then
    some { s with memory := fun a => if a = address then data else s.memory a }
  else none

/-- `CPU::mem_read_u16`: little-endian 16-bit read. -/
def memReadU16 (s : CPU) (pos : Nat) : Option Nat := do
  let lo ← memRead s pos
  let hi ← memRead s (pos + 1)
  pure ((hi <<< 8) ||| lo)

/-- `CPU::mem_write_u16`: little-endian 16-bit write
(`hi = (data >> 8) as u8`, `lo = (data & 0xff) as u8`). -/
def memWriteU16 (s : CPU) (pos data : Nat) : Option CPU := do
  let hi := (data >>> 8) % 256
  let lo := data &&& 0xff
  let s1 ← memWrite s pos lo
  memWrite s1 (pos + 1) hi

/-- `CPU::get_operand_address`.  The `_ => todo!()` arm panics (`none`).
Note two faithful quirks of the source: `AbsoluteX` adds `self.reg_y`, and
`IndirectX`/`IndirectY` both compute the zero-page pointer as
`self.mem_read(self.pc) + self.reg_x` with a checked (panicking) `u8` add. -/
def getOperandAddress (s : CPU) (mode : AddressingMode) : Option Nat :=
  match mode with
  | .Immediate => some s.pc
  | .ZeroPage => memRead s s.pc
  | .ZeroPageX => do
      let page_addr ← memRead s s.pc
      pure ((page_addr + s.reg_x) % 256)
  | .ZeroPageY => do
      let page_addr ← memRead s s.pc
      pure ((page_addr + s.reg_y) % 256)
  | .Absolute => memReadU16 s s.pc
  | .AbsoluteY => do
      let page_addr ← memReadU16 s s.pc
      pure ((page_addr + s.reg_y) % 65536)
  | .AbsoluteX => do
      let page_addr ← memReadU16 s s.pc
      pure ((page_addr + s.reg_y) % 65536)
  | .Indirect => do
      let base ← memRead s s.pc
      let lb ← memRead s base
      let hb ← memRead s ((base + 1) % 256)
      pure ((hb <<< 8) ||| lb)
  | .IndirectX => do
      let b ← memRead s s.pc
      let base ← u8add b s.reg_x
      let lb ← memRead s base
      let hb ← memRead s ((base + 1) % 256)
      pure ((hb <<< 8) ||| lb)
  | .IndirectY => do
      let b ← memRead s s.pc
      let base ← u8add b s.reg_x
      let lb ← memRead s base
      let hb ← memRead s ((base + 1) % 256)
      let deref_base := (hb <<< 8) ||| lb
      pure ((deref_base + s.reg_y) % 65536)
  | _ => none

/-- `CPU::load`: copy the program to 0x8000.. and write 0x8000 into the
reset vector.  The slice assignment panics when `0x8000 + len` exceeds the
array length. -/
def load (s : CPU) (program : List Nat) : Option CPU :=
  if 0x8000 + program.length ≤ MEM_LEN then
    let s1 : CPU :=
      { s with memory := fun a =>
          if 0x8000 ≤ a ∧ a < 0x8000 + program.length then
            program.getD (a - 0x8000) 0
          else s.memory a }
    memWriteU16 s1 0xfffc 0x8000
  else none

/-- `CPU::reset`: `pc ← read16(0xfffc)`; `reg_x`, `reg_y`, `acc_reg` and
`status` are all set to 0.  The struct has no stack-pointer field. -/
def reset (s : CPU) : Option CPU := do
  let v ← memReadU16 s 0xfffc
  pure { s with pc := v, reg_x := 0, reg_y := 0, acc_reg := 0, status := 0 }

/-- `CPU::update_negative_zero_flags`. -/
def updateNegativeZeroFlags (s : CPU) (result : Nat) : CPU :=
  let st :=
    if result = 0 then s.status ||| 0x02
    else s.status &&& 0xfd
  let st2 :=
    if result &&& 0x80 ≠ 0 then st ||| 0x80
    else st &&& 0x7f
  { s with status := st2 }

/-- `CPU::lda`. -/
def lda (s : CPU) (value : Nat) : CPU :=
  updateNegativeZeroFlags { s with acc_reg := value } value

/-- `CPU::tax`. -/
def tax (s : CPU) : CPU :=
  updateNegativeZeroFlags { s with reg_x := s.acc_reg } s.acc_reg

/-- `CPU::inx`. -/
def inx (s : CPU) : CPU :=
  let x := (s.reg_x + 1) % 256
  updateNegativeZeroFlags { s with reg_x := x } x

/-- `CPU::adc`.  `value` is the `u16` accumulation
`0.wrapping_add(mem_val).wrapping_add(acc_reg).wrapping_add(carry)`;
the carry bit is only *set* (inside the `if value > 255` branch), the
overflow bit is written through `(overflow >> 1)` into bit 6, and the
accumulator receives `value as u8`. -/
def adc (s : CPU) (mode : AddressingMode) : Option CPU := do
  let addr ← getOperandAddress s mode
  let mem_val ← memRead s addr
  let carry_flag := s.status &&& 0x01
  let value := (((0 + mem_val) % 65536 + s.acc_reg) % 65536 + carry_flag) % 65536
  let s1 :=
    if value > 255 then
      { s with status := (s.status &&& 0xfe) ||| 0x01 }
    else s
  let v8 := value % 256
  let overflow := (mem_val ^^^ v8) &&& (s.acc_reg ^^^ v8) &&& 0x80
  let s2 := { s1 with status := (s1.status &&& 0xbf) ||| (overflow >>> 1) }
  let s3 := { s2 with acc_reg := v8 }
  pure (updateNegativeZeroFlags s3 v8)

/-- Outcome of `CPU::run` under a fuel bound. -/
inductive RunResult where
  | ret : CPU → RunResult
  | panicked : RunResult
  | fuelOut : RunResult

/-- Accumulator of a returned run, when the run returned. -/
def RunResult.retAcc : RunResult → Option Nat
  | .ret s => some s.acc_reg
  | _ => none

/-- Program counter of a returned run, when the run returned. -/
def RunResult.retPc : RunResult → Option Nat
  | .ret s => some s.pc
  | _ => none

/-- `HashMap::get` over the ordered insertion list: the last insertion with
the given key wins. -/
def opsGet (ops : List (Nat × OpCode)) (k : Nat) : Option OpCode :=
  (ops.reverse.find? (fun e => e.1 == k)).map (fun e => e.2)

/-- `create_ops_info` insertions, part 1 (split only to keep list literals small). -/
def opsChunk1 : List (Nat × OpCode) := [
  (0x00, ⟨0x00, "BRK", .Implicit, 7, 1⟩),
  (0x69, ⟨0x69, "ADC", .Immediate, 2, 2⟩),
  (0x65, ⟨0x65, "ADC", .ZeroPage, 3, 2⟩),
  (0x75, ⟨0x75, "ADC", .ZeroPageX, 4, 2⟩),
  (0x6D, ⟨0x6D, "ADC", .Absolute, 4, 3⟩),
  (0x7D, ⟨0x7D, "ADC", .AbsoluteX, 4, 3⟩),
  (0x79, ⟨0x79, "ADC", .AbsoluteY, 4, 3⟩),
  (0x61, ⟨0x61, "ADC", .IndirectX, 6, 2⟩),
  (0x71, ⟨0x71, "ADC", .IndirectY, 5, 2⟩),
  (0x29, ⟨0x29, "AND", .Immediate, 2, 2⟩),
  (0x25, ⟨0x25, "AND", .ZeroPage, 3, 2⟩),
  (0x35, ⟨0x35, "AND", .ZeroPageX, 4, 2⟩),
  (0x2D, ⟨0x2D, "AND", .Absolute, 4, 3⟩),
  (0x3D, ⟨0x3D, "AND", .AbsoluteX, 4, 3⟩),
  (0x39, ⟨0x39, "AND", .AbsoluteY, 4, 3⟩),
  (0x21, ⟨0x21, "AND", .IndirectX, 6, 2⟩),
  (0x31, ⟨0x31, "AND", .IndirectY, 5, 2⟩),
  (0x0A, ⟨0x0A, "ASL", .Accumulator, 2, 1⟩),
  (0x06, ⟨0x06, "ASL", .ZeroPage, 5, 2⟩),
  (0x16, ⟨0x16, "ASL", .ZeroPageX, 6, 2⟩),
  (0x0E, ⟨0x0E, "ASL", .Absolute, 6, 3⟩),
  (0x1E, ⟨0x1E, "ASL", .AbsoluteX, 7, 3⟩),
  (0x90, ⟨0x90, "BCC", .Relative, 2, 2⟩),
  (0xB0, ⟨0xB0, "BCS", .Relative, 2, 2⟩),
  (0x90, ⟨0x90, "BEQ", .Relative, 2, 2⟩),
  (0x24, ⟨0x24, "BIT", .ZeroPage, 2, 3⟩),
  (0x2C, ⟨0x2C, "BIT", .Absolute, 3, 4⟩),
  (0x30, ⟨0x30, "BMI", .Relative, 2, 2⟩),
  (0xD0, ⟨0xD0, "BNE", .Relative, 2, 2⟩),
  (0x10, ⟨0x10, "BPL", .Relative, 2, 2⟩),
  (0x00, ⟨0x00, "BRK", .Implicit, 7, 1⟩),
  (0x50, ⟨0x50, "BVC", .Relative, 2, 2⟩),
  (0x70, ⟨0x70, "BVS", .Relative, 2, 2⟩),
  (0x18, ⟨0x18, "CLC", .Implicit, 2, 1⟩),
  (0xD8, ⟨0xD8, "CLD", .Implicit, 2, 1⟩),
  (0x58, ⟨0x58, "CLI", .Implicit, 2, 1⟩),
  (0xB8, ⟨0xB8, "CLV", .Implicit, 2, 1⟩),
  (0xC9, ⟨0xC9, "CMP", .Immediate, 2, 2⟩),
  (0xC5, ⟨0xC5, "CMP", .ZeroPage, 3, 2⟩),
  (0xD5, ⟨0xD5, "CMP", .ZeroPageX, 4, 2⟩)]

/-- `create_ops_info` insertions, part 2 (split only to keep list literals small). -/
def opsChunk2 : List (Nat × OpCode) := [
  (0xCD, ⟨0xCD, "CMP", .Absolute, 4, 3⟩),
  (0xDD, ⟨0xDD, "CMP", .AbsoluteX, 4, 3⟩),
  (0xD9, ⟨0xD9, "CMP", .AbsoluteY, 4, 3⟩),
  (0xC1, ⟨0xC1, "CMP", .IndirectX, 6, 2⟩),
  (0xD1, ⟨0xD1, "CMP", .IndirectY, 5, 2⟩),
  (0xE0, ⟨0xE0, "CPX", .Immediate, 2, 2⟩),
  (0xE4, ⟨0xE4, "CPX", .ZeroPage, 3, 2⟩),
  (0xEC, ⟨0xEC, "CPX", .Absolute, 4, 2⟩),
  (0xC0, ⟨0xC0, "CPY", .Immediate, 2, 2⟩),
  (0xC4, ⟨0xC4, "CPY", .ZeroPage, 3, 2⟩),
  (0xCC, ⟨0xCC, "CPY", .Immediate, 4, 3⟩),
  (0xC6, ⟨0xC6, "DEC", .ZeroPage, 5, 2⟩),
  (0xD6, ⟨0xD6, "DEC", .ZeroPageX, 6, 2⟩),
  (0xCE, ⟨0xCE, "DEC", .Absolute, 6, 3⟩),
  (0xDE, ⟨0xDE, "DEC", .AbsoluteX, 7, 3⟩),
  (0xCA, ⟨0xCA, "DEX", .Implicit, 2, 1⟩),
  (0x88, ⟨0x88, "DEY", .Implicit, 2, 1⟩),
  (0x49, ⟨0x49, "EOR", .Immediate, 2, 2⟩),
  (0x45, ⟨0x45, "EOR", .ZeroPage, 3, 2⟩),
  (0x55, ⟨0x55, "EOR", .ZeroPageX, 4, 2⟩),
  (0x4D, ⟨0x4D, "EOR", .Absolute, 4, 3⟩),
  (0x5D, ⟨0x5D, "EOR", .AbsoluteX, 4, 3⟩),
  (0x59, ⟨0x59, "EOR", .AbsoluteY, 4, 3⟩),
  (0x41, ⟨0x41, "EOR", .IndirectX, 6, 2⟩),
  (0x51, ⟨0x51, "EOR", .IndirectY, 5, 2⟩),
  (0xE6, ⟨0xE6, "INC", .ZeroPage, 5, 2⟩),
  (0xF6, ⟨0xF6, "INC", .ZeroPageX, 6, 2⟩),
  (0xEE, ⟨0xEE, "INC", .Absolute, 6, 3⟩),
  (0xFE, ⟨0xFE, "INC", .AbsoluteX, 7, 3⟩),
  (0xE8, ⟨0xE8, "INX", .Implicit, 2, 1⟩),
  (0xC8, ⟨0xC8, "INX", .Implicit, 2, 1⟩),
  (0x4C, ⟨0x4C, "JMP", .Absolute, 3, 3⟩),
  (0x4C, ⟨0x4C, "JMP", .Indirect, 3, 3⟩),
  (0x20, ⟨0x20, "JMP", .Absolute, 6, 3⟩),
  (0xA9, ⟨0xA9, "LDA", .Immediate, 2, 2⟩),
  (0xA5, ⟨0xA5, "LDA", .ZeroPage, 3, 2⟩),
  (0xB5, ⟨0xB5, "LDA", .ZeroPageX, 4, 2⟩),
  (0xAD, ⟨0xAD, "LDA", .Absolute, 4, 3⟩),
  (0xBD, ⟨0xBD, "LDA", .AbsoluteX, 4, 3⟩),
  (0xB9, ⟨0xB9, "LDA", .AbsoluteY, 4, 3⟩)]

/-- `create_ops_info` insertions, part 3 (split only to keep list literals small). -/
def opsChunk3 : List (Nat × OpCode) := [
  (0xA1, ⟨0xA1, "LDA", .IndirectX, 6, 2⟩),
  (0xB1, ⟨0xB1, "LDA", .IndirectY, 5, 2⟩),
  (0xA2, ⟨0xA2, "LDX", .Immediate, 2, 2⟩),
  (0xA6, ⟨0xA6, "LDX", .ZeroPage, 3, 2⟩),
  (0xB6, ⟨0xB6, "LDX", .ZeroPageY, 4, 2⟩),
  (0xAE, ⟨0xAE, "LDX", .Absolute, 4, 3⟩),
  (0xBE, ⟨0xBE, "LDX", .AbsoluteY, 4, 3⟩),
  (0xA0, ⟨0xA0, "LDY", .Immediate, 2, 2⟩),
  (0xA4, ⟨0xA4, "LDY", .ZeroPage, 3, 2⟩),
  (0xB4, ⟨0xB4, "LDY", .ZeroPageX, 4, 2⟩),
  (0xAC, ⟨0xAC, "LDY", .Absolute, 4, 3⟩),
  (0xAC, ⟨0xAC, "LDY", .AbsoluteX, 4, 3⟩),
  (0x4A, ⟨0x4A, "LSR", .Accumulator, 2, 1⟩),
  (0x46, ⟨0x46, "LSR", .ZeroPage, 5, 2⟩),
  (0x56, ⟨0x56, "LSR", .ZeroPageX, 6, 2⟩),
  (0x4E, ⟨0x4E, "LSR", .Absolute, 6, 3⟩),
  (0x5E, ⟨0x5E, "LSR", .AbsoluteX, 7, 3⟩),
  (0xEA, ⟨0xEA, "NOP", .Implicit, 2, 1⟩),
  (0x09, ⟨0x09, "ORA", .Immediate, 2, 2⟩),
  (0x05, ⟨0x05, "ORA", .ZeroPage, 3, 2⟩),
  (0x15, ⟨0x15, "ORA", .ZeroPageX, 4, 2⟩),
  (0x15, ⟨0x15, "ORA", .ZeroPageX, 4, 2⟩),
  (0x15, ⟨0x15, "ORA", .ZeroPageX, 4, 2⟩),
  (0x0D, ⟨0x0D, "ORA", .Absolute, 4, 3⟩),
  (0x1D, ⟨0x1D, "ORA", .AbsoluteX, 4, 3⟩),
  (0x19, ⟨0x19, "ORA", .AbsoluteY, 4, 3⟩),
  (0x01, ⟨0x01, "ORA", .IndirectX, 6, 2⟩),
  (0x11, ⟨0x11, "ORA", .IndirectY, 5, 2⟩),
  (0x48, ⟨0x48, "PHA", .Implicit, 3, 1⟩),
  (0x08, ⟨0x08, "PHP", .Implicit, 3, 1⟩),
  (0x68, ⟨0x68, "PLA", .Implicit, 4, 1⟩),
  (0x28, ⟨0x28, "PLP", .Implicit, 4, 1⟩),
  (0x2A, ⟨0x2A, "ROL", .Accumulator, 2, 1⟩),
  (0x26, ⟨0x26, "ROL", .ZeroPage, 5, 2⟩),
  (0x36, ⟨0x36, "ROL", .ZeroPageX, 6, 2⟩),
  (0x2E, ⟨0x2E, "ROL", .Absolute, 6, 3⟩),
  (0x3E, ⟨0x3E, "ROL", .AbsoluteX, 7, 3⟩),
  (0x6A, ⟨0x6A, "ROR", .Accumulator, 2, 1⟩),
  (0x66, ⟨0x66, "ROR", .ZeroPage, 5, 2⟩),
  (0x76, ⟨0x76, "ROR", .ZeroPageX, 6, 2⟩)]

/-- `create_ops_info` insertions, part 4 (split only to keep list literals small). -/
def opsChunk4 : List (Nat × OpCode) := [
  (0x6E, ⟨0x6E, "ROR", .Absolute, 6, 3⟩),
  (0x7E, ⟨0x7E, "ROR", .AbsoluteX, 7, 3⟩),
  (0x40, ⟨0x40, "RTI", .Implicit, 6, 1⟩),
  (0x60, ⟨0x60, "RTS", .Implicit, 6, 1⟩),
  (0xE9, ⟨0xE9, "SBC", .Immediate, 2, 2⟩),
  (0xE5, ⟨0xE5, "SBC", .ZeroPage, 3, 2⟩),
  (0xF5, ⟨0xF5, "SBC", .ZeroPageX, 4, 2⟩),
  (0xED, ⟨0xED, "SBC", .Absolute, 4, 3⟩),
  (0xFD, ⟨0xFD, "SBC", .AbsoluteX, 4, 3⟩),
  (0xF9, ⟨0xF9, "SBC", .AbsoluteY, 4, 3⟩),
  (0xE1, ⟨0xE1, "SBC", .IndirectX, 6, 2⟩),
  (0xF1, ⟨0xF1, "SBC", .IndirectY, 5, 2⟩),
  (0x38, ⟨0x38, "SEC", .Implicit, 2, 1⟩),
  (0xF8, ⟨0xF8, "SED", .Implicit, 2, 1⟩),
  (0x78, ⟨0x78, "STI", .Implicit, 2, 1⟩),
  (0x85, ⟨0x85, "STA", .ZeroPage, 3, 2⟩),
  (0x95, ⟨0x95, "STA", .Absolute, 4, 2⟩),
  (0x8D, ⟨0x8D, "STA", .AbsoluteX, 4, 3⟩),
  (0x99, ⟨0x99, "STA", .AbsoluteY, 5, 3⟩),
  (0x81, ⟨0x81, "STA", .IndirectX, 6, 2⟩),
  (0x91, ⟨0x91, "STA", .IndirectY, 6, 2⟩),
  (0x86, ⟨0x86, "STX", .ZeroPage, 3, 2⟩),
  (0x96, ⟨0x96, "STX", .ZeroPageY, 4, 2⟩),
  (0x8E, ⟨0x8E, "STX", .Absolute, 4, 3⟩),
  (0x84, ⟨0x84, "STY", .ZeroPage, 3, 2⟩),
  (0x94, ⟨0x94, "STY", .ZeroPageX, 4, 2⟩),
  (0x8C, ⟨0x8C, "STY", .Absolute, 4, 3⟩),
  (0xAA, ⟨0xAA, "TAX", .Implicit, 2, 1⟩),
  (0xA8, ⟨0xA8, "TAY", .Implicit, 2, 1⟩),
  (0xBA, ⟨0xBA, "TSX", .Implicit, 2, 1⟩),
  (0x8A, ⟨0x8A, "TXA", .Implicit, 2, 1⟩),
  (0x9A, ⟨0x9A, "TXS", .Implicit, 2, 1⟩),
  (0x98, ⟨0x98, "TYA", .Implicit, 2, 1⟩)]

/-- `create_ops_info`: the ordered list of all 153 `hash.insert` calls, in source order.  Duplicate keys are kept (in a `HashMap` the later insertion overwrites the earlier one). -/
def createOpsInfo : List (Nat × OpCode) :=
  opsChunk1 ++ opsChunk2 ++ opsChunk3 ++ opsChunk4

/-- `CPU::run`, with explicit fuel.  The loop handles only opcodes 0x00
(which calls `reset` and continues looping) and 0x69 (ADC immediate, then
`pc += size - 1` looked up from the table); every other opcode hits the
`_ => break` arm, which makes `run` return. -/
def runLoop : Nat → CPU → RunResult
  | 0, _ => .fuelOut
  | n + 1, s =>
    match memRead s s.pc with
    | none => .panicked
    | some opcode =>
      -- `self.pc += 1`: the preceding read ensures `pc < 0xffff`, so this
      -- u16 increment cannot overflow.
      let s := { s with pc := s.pc + 1 }
      match opcode with
      | 0x00 =>
        match reset s with
        | none => .panicked
        | some s1 => runLoop n s1
      | 0x69 =>
        match adc s .Immediate with
        | none => .panicked
        | some s1 =>
          match opsGet createOpsInfo 0x69 with
          | none => .panicked
          | some op =>
            if s1.pc + (op.size - 1) < 65536 then
              runLoop n { s1 with pc := s1.pc + (op.size - 1) }
            else .panicked
      | _ => .ret s

/-- `CPU::load_and_run`: `load; reset; run`. -/
def load_and_run (fuel : Nat) (s : CPU) (program : List Nat) : RunResult :=
  match load s program with
  | none => .panicked
  | some s1 =>
    match reset s1 with
    | none => .panicked
    | some s2 => runLoop fuel s2

/-- `load` followed by `reset` on a fresh CPU. -/
def loadReset (program : List Nat) : Option CPU := do
  let s1 ← load CPU.new program
  reset s1

/-! Concrete CPU states used as explicit inputs for the claims below. -/

/-- State with incoming carry set (status bit 0 = 1), `A = 0`, and an
all-zero memory, so that ADC immediate adds `0 + 0 + 1`. -/
def cpuC3 : CPU :=
  { acc_reg := 0, pc := 0, status := 1, reg_x := 0, reg_y := 0,
    memory := fun _ => 0 }

/-- State with `X = 1`, `Y = 2` and the operand bytes at `pc = 0x10` reading
as the 16-bit base `0x1000`. -/
def cpuC5 : CPU :=
  { acc_reg := 0, pc := 0x10, status := 0, reg_x := 1, reg_y := 2,
    memory := fun a => if a = 0x10 then 0x00 else if a = 0x11 then 0x10 else 0 }

/-- State with `X = 1`, `Y = 0`, pointer byte `0x10` at `pc = 0`, and
zero-page bytes `0x10 ↦ 0xAA`, `0x11 ↦ 0xBB`, `0x12 ↦ 0xCC`. -/
def cpuC6 : CPU :=
  { acc_reg := 0, pc := 0, status := 0, reg_x := 1, reg_y := 0,
    memory := fun a =>
      if a = 0 then 0x10 else if a = 0x10 then 0xAA
      else if a = 0x11 then 0xBB else if a = 0x12 then 0xCC else 0 }

/-- State with operand byte `0xFF` at `pc = 0` and `X = 1`, so an 8-bit
effective-address computation must wrap. -/
def cpuC7 : CPU :=
  { acc_reg := 0, pc := 0, status := 0, reg_x := 1, reg_y := 0,
    memory := fun a => if a = 0 then 0xFF else 0 }

/-- An arbitrary dirty prior state for `reset`. -/
def cpuC8 : CPU :=
  { acc_reg := 7, pc := 3, status := 0xFF, reg_x := 9, reg_y := 11,
    memory := fun _ => 0 }

/-- The CPU state produced by `load` + `reset` of the one-byte program
`[0x00]`: `pc = 0x8000` points at the BRK opcode. -/
def cpu00 : CPU := (loadReset [0x00]).getD CPU.new

/-- C1: the spec scenario `[0xA9, 0x05, 0x00]` fails on the code.  `run`
has no arm for opcode 0xA9 (LDA immediate), so the `_ => break` arm fires
on the very first instruction: `load_and_run` returns with `A = 0`
(not 0x05) and `pc = 0x8001` (not at the BRK at 0x8002).  The repository's
own test `test_0xa9_lda_immediate_load_data` asserts `acc_reg == 0x05`. -/
theorem C1_lda_program_returns_acc_zero :
    RunResult.retAcc (load_and_run 4 CPU.new [0xA9, 0x05, 0x00]) = some 0 ∧
    RunResult.retAcc (load_and_run 4 CPU.new [0xA9, 0x05, 0x00]) ≠ some 0x05 ∧
    RunResult.retPc (load_and_run 4 CPU.new [0xA9, 0x05, 0x00]) = some 0x8001 := by
  refine ⟨by decide, by decide, by decide⟩

/-- C2: memory access is *not* total over the 16-bit address space.  The
array is `[u8; 0xffff]` (65535 bytes), so `mem_read(0xFFFF)` indexes out of
bounds and panics, and the 16-bit read at the IRQ/BRK vector 0xFFFE panics
on its high byte.  This refutes the claim for every CPU state. -/
theorem C2_memory_access_not_total (s : CPU) :
    memRead s 0xFFFF = none ∧ memReadU16 s 0xFFFE = none := by
  constructor
  · simp [memRead, MEM_LEN]
  · simp [memReadU16, memRead, MEM_LEN, Option.bind]

/-- C4: fetching opcode 0x00 (BRK) does not halt `run`.  The 0x00 arm calls
`reset` and falls through to the next loop iteration; on the program
`[0x00]` the reset vector sends `pc` straight back to the BRK, so `run`
re-enters the fetch loop forever: for every fuel bound the loop is still
running (it neither returns nor panics). -/
theorem C4_brk_does_not_halt :
    loadReset [0x00] = some cpu00 ∧
    ∀ n, runLoop n cpu00 = RunResult.fuelOut := by
  refine ⟨rfl, ?_⟩
  intro n
  induction n with
  | zero => rfl
  | succ n ih =>
    rw [show runLoop (n + 1) cpu00 = runLoop n cpu00 from rfl]
    exact ih

/-- C5: resolving AbsoluteX adds `reg_y`, not `reg_x`.  With base
`read16(pc) = 0x1000`, `X = 1`, `Y = 2`, the code yields 0x1002 instead of
the claimed `base + X = 0x1001`. -/
theorem C5_absolute_x_uses_reg_y :
    getOperandAddress cpuC5 .AbsoluteX = some 0x1002 ∧
    getOperandAddress cpuC5 .AbsoluteX ≠ some 0x1001 ∧
    cpuC5.reg_x = 1 ∧ cpuC5.reg_y = 2 := by
  refine ⟨by decide, by decide, by decide, by decide⟩

/-- C6: resolving (Indirect),Y adds `reg_x` to the zero-page pointer byte.
With pointer byte 0x10, `X = 1`, `Y = 0`, the code reads the pointer pair
at 0x11/0x12 giving 0xCCBB, instead of the claimed
`read16_zp(0x10) = 0xBBAA`. -/
theorem C6_indirect_y_adds_x_to_pointer :
    getOperandAddress cpuC6 .IndirectY = some 0xCCBB ∧
    getOperandAddress cpuC6 .IndirectY ≠ some 0xBBAA := by
  refine ⟨by decide, by decide⟩

/-- C7: ZeroPageX wraps at 0xFF as claimed (operand 0xFF with `X = 1`
resolves to 0x00), but the (Indirect,X) pointer is computed with a plain
(overflow-checked) `u8` addition, which panics on the same input instead of
wrapping: the claim that the pointer computation is total and wrapping
fails on the code. -/
theorem C7_indirect_x_pointer_add_panics :
    getOperandAddress cpuC7 .ZeroPageX = some 0x00 ∧
    getOperandAddress cpuC7 .IndirectX = none := by
  refine ⟨by decide, by decide⟩

/-- C8 counterexample: after `reset` the status register is 0, not the
claimed `0b0010_0100` (0x24); the struct also has no stack-pointer field
to receive 0xFD. -/
theorem C8_reset_status_counterexample :
    (reset cpuC8).map CPU.status = some 0 ∧ (0 : Nat) ≠ 0x24 := by
  refine ⟨by decide, by decide⟩

/-- C8 amended: `reset` sets `pc ← read16(0xFFFC)` and clears `A`, `X`,
`Y` and the whole status register to 0 (there is no stack-pointer field),
leaving memory unchanged — for every prior state. -/
theorem C8_reset_amended (s : CPU) :
    ∃ t, reset s = some t ∧
      t.pc = ((s.memory 0xfffd) <<< 8) ||| s.memory 0xfffc ∧
      t.acc_reg = 0 ∧ t.reg_x = 0 ∧ t.reg_y = 0 ∧ t.status = 0 ∧
      t.memory = s.memory := by
  exact ⟨_, rfl, rfl, rfl, rfl, rfl, rfl, rfl⟩

/-- C9: the opcode table does not enumerate every legal opcode exactly
once.  Key 0x90 is inserted twice (as BCC, then overwritten by BEQ), key
0x4C twice (JMP Absolute, then JMP Indirect), key 0xAC twice (LDY
Absolute, then LDY AbsoluteX), and key 0x15 three times; the final map
holds BEQ at 0x90, JMP Indirect at 0x4C and LDY AbsoluteX at 0xAC,
contradicting the claim. -/
theorem C9_opcode_table_duplicate_keys :
    ((createOpsInfo.filter (fun e => e.1 == 0x90)).map
      (fun e => e.2.instruction)) = ["BCC", "BEQ"] ∧
    ((createOpsInfo.filter (fun e => e.1 == 0x4C)).map
      (fun e => e.2.addressing_mode)) = [.Absolute, .Indirect] ∧
    ((createOpsInfo.filter (fun e => e.1 == 0xAC)).map
      (fun e => e.2.addressing_mode)) = [.Absolute, .AbsoluteX] ∧
    (createOpsInfo.filter (fun e => e.1 == 0x15)).length = 3 ∧
    (opsGet createOpsInfo 0x90).map OpCode.instruction = some "BEQ" ∧
    (opsGet createOpsInfo 0x4C).map OpCode.addressing_mode =
      some AddressingMode.Indirect ∧
    (opsGet createOpsInfo 0xAC).map OpCode.addressing_mode =
      some AddressingMode.AbsoluteX := by
  refine ⟨by decide, by decide, by decide, by decide, by decide, by decide,
    by decide⟩

/-! Helper lemmas about single status bits. -/

/-- A number ANDed with the bit-7 mask is nonzero exactly when bit 7 is set. -/
lemma and128_ne_iff (z : Nat) : (z &&& 0x80 ≠ 0) ↔ z.testBit 7 = true := by
  rw [show (0x80 : Nat) = 2 ^ 7 by norm_num, Nat.and_two_pow]
  cases h : z.testBit 7 <;> simp

/-- Conjunction of two bit-7 tests, as the nonzeroness test the code uses. -/
lemma and_and_128_ne_zero (x y : Nat) :
    decide (x &&& (y &&& 0x80) ≠ 0) = (x.testBit 7 && y.testBit 7) := by
  rw [show (0x80 : Nat) = 2 ^ 7 by norm_num, Nat.and_two_pow]
  cases hy : y.testBit 7
  · simp
  · simp only [Bool.toNat_true, Nat.one_mul, Nat.and_two_pow]
    cases hx : x.testBit 7 <;> simp

/-- Effect of `update_negative_zero_flags` on the four status bits the ADC
claims mention: carry (0) and overflow (6) are untouched, zero (1) tracks
`result = 0`, negative (7) tracks bit 7 of `result`. -/
lemma updateNZ_status (s : CPU) (r : Nat) :
    (updateNegativeZeroFlags s r).status.testBit 0 = s.status.testBit 0 ∧
    (updateNegativeZeroFlags s r).status.testBit 6 = s.status.testBit 6 ∧
    (updateNegativeZeroFlags s r).status.testBit 1 = decide (r = 0) ∧
    (updateNegativeZeroFlags s r).status.testBit 7 = r.testBit 7 := by
  unfold updateNegativeZeroFlags
  by_cases h0 : r = 0 <;> by_cases h7 : r &&& 0x80 ≠ 0 <;>
    simp [h0, h7, Nat.testBit_or, Nat.testBit_and,
      show Nat.testBit 2 0 = false from by decide,
      show Nat.testBit 2 6 = false from by decide,
      show Nat.testBit 2 1 = true from by decide,
      show Nat.testBit 2 7 = false from by decide,
      show Nat.testBit 0xfd 0 = true from by decide,
      show Nat.testBit 0xfd 6 = true from by decide,
      show Nat.testBit 0xfd 1 = false from by decide,
      show Nat.testBit 0xfd 7 = true from by decide,
      show Nat.testBit 0x80 0 = false from by decide,
      show Nat.testBit 0x80 6 = false from by decide,
      show Nat.testBit 0x80 1 = false from by decide,
      show Nat.testBit 0x80 7 = true from by decide,
      show Nat.testBit 0x7f 0 = true from by decide,
      show Nat.testBit 0x7f 6 = true from by decide,
      show Nat.testBit 0x7f 1 = true from by decide,
      show Nat.testBit 0x7f 7 = false from by decide] <;>
    first
      | rfl
      | (rw [and128_ne_iff] at h7; simp [h7])

/-- C3 counterexample: with incoming carry set and `A = M = 0` the sum is
`0 + 0 + 1 = 1 ≤ 0xFF`, so the claim requires the carry flag to end up
clear; the code leaves it set (the carry bit is only ever set, never
cleared, by `adc`). -/
theorem C3_adc_carry_not_cleared :
    (adc cpuC3 .Immediate).map (fun t => t.status.testBit 0) = some true ∧
    ¬ (0 + 0 + 1 > 0xff) := by
  refine ⟨by decide, by decide⟩

/-- C3 amended: for every state (with in-range `pc`, operand byte and
accumulator), ADC immediate yields `A' = (A + M + C) % 256`, *sets* the
carry flag when `A + M + C > 0xFF` and leaves it unchanged otherwise,
writes `V = ((A ^ sum) & (M ^ sum) & 0x80) != 0` into bit 6, and sets Z/N
from `A'` via `set_zn`. -/
theorem C3_adc_flags_amended (s : CPU)
    (hpc : s.pc < 0xffff) (hM : s.memory s.pc < 256) (hA : s.acc_reg < 256) :
    ∃ t, adc s .Immediate = some t ∧
      t.acc_reg = (s.acc_reg + s.memory s.pc + (s.status &&& 1)) % 256 ∧
      t.status.testBit 0 =
        (decide (s.acc_reg + s.memory s.pc + (s.status &&& 1) > 0xff) ||
          s.status.testBit 0) ∧
      t.status.testBit 6 =
        decide ((s.acc_reg ^^^
            ((s.acc_reg + s.memory s.pc + (s.status &&& 1)) % 256)) &&&
          ((s.memory s.pc ^^^
            ((s.acc_reg + s.memory s.pc + (s.status &&& 1)) % 256)) &&& 0x80) ≠ 0) ∧
      t.status.testBit 1 =
        decide ((s.acc_reg + s.memory s.pc + (s.status &&& 1)) % 256 = 0) ∧
      t.status.testBit 7 =
        ((s.acc_reg + s.memory s.pc + (s.status &&& 1)) % 256).testBit 7 := by
  have hC : s.status &&& 1 ≤ 1 := by rw [Nat.and_one_is_mod]; omega
  have hv : (((0 + s.memory s.pc) % 65536 + s.acc_reg) % 65536 +
      (s.status &&& 1)) % 65536 = s.acc_reg + s.memory s.pc + (s.status &&& 1) := by
    rw [Nat.zero_add, Nat.mod_eq_of_lt (by omega), Nat.mod_eq_of_lt (by omega),
      Nat.mod_eq_of_lt (by omega)]
    omega
  simp only [adc, getOperandAddress, memRead, MEM_LEN, if_pos hpc,
    Option.some_bind, Option.bind_eq_bind, Option.pure_def]
  refine ⟨_, rfl, ?_, ?_, ?_, ?_, ?_⟩
  · simp only [updateNegativeZeroFlags]; rw [hv]
  · rw [(updateNZ_status _ _).1]
    simp only [hv]
    by_cases hgt : 255 < s.acc_reg + s.memory s.pc + s.status % 2 <;>
      simp [hgt, Nat.and_one_is_mod, Nat.testBit_or, Nat.testBit_and,
        Nat.testBit_shiftRight,
        show Nat.testBit 0xbf 0 = true from by decide,
        show Nat.testBit 0xfe 0 = false from by decide,
        show Nat.testBit 0x01 0 = true from by decide,
        show Nat.testBit 0x80 1 = false from by decide]
  · rw [(updateNZ_status _ _).2.1]
    simp only [hv]
    rw [and_and_128_ne_zero]
    by_cases hgt : s.acc_reg + s.memory s.pc + (s.status &&& 1) > 255 <;>
      simp [hgt, Nat.testBit_or, Nat.testBit_and, Nat.testBit_xor,
        Nat.testBit_shiftRight,
        show Nat.testBit 0xbf 6 = false from by decide,
        show Nat.testBit 0x80 7 = true from by decide,
        Bool.and_comm]
  · rw [(updateNZ_status _ _).2.2.1]; rw [hv]
  · rw [(updateNZ_status _ _).2.2.2]; rw [hv]

/-- C3 amended, instantiated at the concrete state `cpuC3`. -/
theorem C3_adc_flags_amended_witness :
    cpuC3.pc < 0xffff ∧ cpuC3.memory cpuC3.pc < 256 ∧ cpuC3.acc_reg < 256 ∧
    ∃ t, adc cpuC3 .Immediate = some t ∧
      t.acc_reg = (cpuC3.acc_reg + cpuC3.memory cpuC3.pc + (cpuC3.status &&& 1)) % 256 ∧
      t.status.testBit 0 =
        (decide (cpuC3.acc_reg + cpuC3.memory cpuC3.pc + (cpuC3.status &&& 1) > 0xff) ||
          cpuC3.status.testBit 0) ∧
      t.status.testBit 6 =
        decide ((cpuC3.acc_reg ^^^
            ((cpuC3.acc_reg + cpuC3.memory cpuC3.pc + (cpuC3.status &&& 1)) % 256)) &&&
          ((cpuC3.memory cpuC3.pc ^^^
            ((cpuC3.acc_reg + cpuC3.memory cpuC3.pc + (cpuC3.status &&& 1)) % 256)) &&& 0x80) ≠ 0) ∧
      t.status.testBit 1 =
        decide ((cpuC3.acc_reg + cpuC3.memory cpuC3.pc + (cpuC3.status &&& 1)) % 256 = 0) ∧
      t.status.testBit 7 =
        ((cpuC3.acc_reg + cpuC3.memory cpuC3.pc + (cpuC3.status &&& 1)) % 256).testBit 7 :=
  ⟨by decide, by decide, by decide,
    C3_adc_flags_amended cpuC3 (by decide) (by decide) (by decide)⟩

/-- Recombining the stored high byte (shifted left 8) with the stored low
byte recovers any 16-bit value. -/
lemma hiLoRecombine (v : Nat) (hv : v < 65536) :
    (((v >>> 8) % 256) <<< 8) ||| (v &&& 0xff) = v := by
  have hsr : v >>> 8 < 256 := by
    rw [Nat.shiftRight_eq_div_pow]
    have : (2 : Nat) ^ 8 = 256 := by norm_num
    omega
  rw [Nat.mod_eq_of_lt hsr]
  apply Nat.eq_of_testBit_eq
  intro i
  simp only [Nat.testBit_or, Nat.testBit_shiftLeft, Nat.testBit_shiftRight,
    Nat.testBit_and, show (0xff : Nat) = 2 ^ 8 - 1 from by norm_num,
    Nat.testBit_two_pow_sub_one]
  by_cases h8 : 8 ≤ i
  · have hi : 8 + (i - 8) = i := by omega
    simp [h8, hi, show ¬ i < 8 from by omega]
  · simp [h8, show i < 8 from by omega]

/-- C10: `mem_write_u16` followed by `mem_read_u16` at the same address
returns the written value, for every state, every address `p ≤ 0xFFFD`
and every 16-bit value: the little-endian split is inverted by the
little-endian read. -/
theorem C10_u16_write_read_roundtrip (s : CPU) (p v : Nat)
    (hp : p ≤ 0xfffd) (hv : v < 0x10000) :
    (memWriteU16 s p v).bind (fun t => memReadU16 t p) = some v := by
  have h1 : p < MEM_LEN := by unfold MEM_LEN; omega
  have h2 : p + 1 < MEM_LEN := by unfold MEM_LEN; omega
  have hne : p ≠ p + 1 := by omega
  simp only [memWriteU16, memWrite, memReadU16, memRead, if_pos h1, if_pos h2,
    Option.some_bind, Option.bind_eq_bind, Option.pure_def]
  simp only [if_pos h1, if_pos h2, Option.some_bind, if_neg hne]
  simp only [if_true]
  exact congrArg some (hiLoRecombine v hv)

/-- C10, instantiated at a fresh CPU, address 0x8000 and value 0x1234. -/
theorem C10_u16_write_read_roundtrip_witness :
    (0x8000 : Nat) ≤ 0xfffd ∧ (0x1234 : Nat) < 0x10000 ∧
    (memWriteU16 CPU.new 0x8000 0x1234).bind
      (fun t => memReadU16 t 0x8000) = some 0x1234 :=
  ⟨by decide, by decide,
    C10_u16_write_read_roundtrip CPU.new 0x8000 0x1234 (by decide) (by decide)⟩

end Nemulator
